import Mathlib

/-!
# Verification of the Rhino XSLT processor wrapper (`XSLTProcessor.js`)

This file is a shallow embedding of the scripting-side logic of
`XSLTProcessor.js`: the type-classifier predicates, the recursive
value-to-markup encoder `value2xml`, the parameter / output-property
marshalling, the URI-resolver bridge, and the `transform` error paths.

The wrapped Java XSLT engine (Saxon / JAXP) is an external collaborator:
it is modelled by explicit function parameters (`files` for `readFile`,
`engineAccepts` for stylesheet compilation, `engineRun` for transformation
execution, `apply` for host-level invocation of a stored callback).  The
engine's XML parse / re-serialize round trip used by `setParameter` /
`getParameter` (with the XML declaration suppressed) is modelled as the
identity on the serialized document text, which is its behavior on the
whitespace-free documents produced by `value2xml` and `toXMLString`.

JavaScript numbers are modelled as integers (`Int`); none of the verified
properties depend on non-integral or non-finite numeric values.
-/

/-- A Rhino/JavaScript value as it crosses the wrapper's API surface:
`undefined`, `null`, booleans, numbers, strings, functions (carried by
their source/string form, which is what `String(fn)` yields), E4X XML
values (carried by their `toXMLString()` serialization), arrays, and
plain objects (own enumerable properties in host enumeration order). -/
inductive JSValue where
  | undef
  | null
  | bool (b : Bool)
  | num (n : Int)
  | str (s : String)
  | fn (src : String)
  | xml (xstr : String)
  | arr (elems : List JSValue)
  | obj (props : List (String × JSValue))

/-- Source `isUndefined` (line 95): `typeof(value) === 'undefined'`. -/
def isUndefined : JSValue → Bool
  | .undef => true
  | _ => false

/-- Source `isNull` (line 104): `value === null`. -/
def isNull : JSValue → Bool
  | .null => true
  | _ => false

/-- Source `isString` (line 113): `typeof(value) === 'string'`. -/
def isString : JSValue → Bool
  | .str _ => true
  | _ => false

/-- Source `isFunction` (line 122): `typeof(value) === 'function'`. -/
def isFunction : JSValue → Bool
  | .fn _ => true
  | _ => false

/-- Source `isObject` (line 131): `!isNull(value) && typeof(value) === 'object'`.
In Rhino an E4X XML value has `typeof === 'xml'`, so it is NOT an object. -/
def isObject : JSValue → Bool
  | .arr _ => true
  | .obj _ => true
  | _ => false

/-- Source `isArray` (line 140): `isObject(value) && value.constructor === Array`. -/
def isArray : JSValue → Bool
  | .arr _ => true
  | _ => false

/-- Source `isXML` (line 149): `typeof(value) === 'xml'`. -/
def isXML : JSValue → Bool
  | .xml _ => true
  | _ => false

/-- JavaScript `ToBoolean` is false exactly on the falsy values:
`undefined`, `null`, `false`, `0` (and `NaN`, outside this model),
and the empty string.  Used to model `value || ''`. -/
def isFalsy : JSValue → Bool
  | .undef => true
  | .null => true
  | .bool b => !b
  | .num n => n == 0
  | .str s => s == ""
  | _ => false

mutual
/-- JavaScript `String(value)` coercion.  Functions stringify to their
source text (carried in the `fn` constructor); E4X XML values stringify
to their markup text; arrays stringify as comma-joined elements
(`Array.prototype.toString`); plain objects to `"[object Object]"`. -/
def jsString : JSValue → String
  | .undef => "undefined"
  | .null => "null"
  | .bool b => if b then "true" else "false"
  | .num n => toString n
  | .str s => s
  | .fn src => src
  | .xml xstr => xstr
  | .arr xs => jsStringElems xs
  | .obj _ => "[object Object]"

/-- Array stringification, `Array.prototype.join(',')`: elements
comma-separated, with `undefined` and `null` elements rendered as empty. -/
def jsStringElems : List JSValue → String
  | [] => ""
  | [x] => if isUndefined x || isNull x then "" else jsString x
  | x :: y :: rest =>
      (if isUndefined x || isNull x then "" else jsString x) ++ "," ++
        jsStringElems (y :: rest)
end

/-- E4X `toXMLString()`: the markup text carried by an XML value.
Only ever called on values for which `isXML` holds. -/
def toXMLString : JSValue → String
  | .xml xstr => xstr
  | _ => ""

/-- Models `value || ''`: the value itself when truthy, else `''`. -/
def orEmpty (v : JSValue) : JSValue :=
  if isFalsy v then .str "" else v

mutual
/-- The inner recursive function of source `value2xml` (lines 159-179):
arrays become a run of `<item index="c">…</item>` elements; non-array
objects become `<key>…</key>` elements per own property; everything
else is `String(value || '')`. -/
def encodeInner : JSValue → String
  | .arr xs => encodeItems xs 0
  | .obj kvs => encodeProps kvs
  | v => jsString (orEmpty v)

/-- The `for (var c = 0; c < value.length; c++)` loop of `value2xml`
(lines 162-166), accumulating from counter `c`. -/
def encodeItems : List JSValue → Nat → String
  | [], _ => ""
  | x :: rest, c =>
      "<item index=\"" ++ toString c ++ "\">" ++ encodeInner x ++ "</item>" ++
        encodeItems rest (c + 1)

/-- The `for (var key in value)` loop of `value2xml` (lines 168-174),
over own enumerable properties in enumeration order. -/
def encodeProps : List (String × JSValue) → String
  | [] => ""
  | (key, v) :: rest =>
      "<" ++ key ++ ">" ++ encodeInner v ++ "</" ++ key ++ ">" ++ encodeProps rest
end

/-- Source `value2xml` (lines 158-180): wrap in the synthetic `<root>`
element; objects (arrays included) go through the recursive encoder,
anything else is concatenated as `value || ''` (string coercion). -/
def value2xml (value : JSValue) : String :=
  "<root>" ++
    (if isObject value then encodeInner value else jsString (orEmpty value)) ++
    "</root>"

/-- A value held in the engine transformer's parameter table: either an
engine document node — modelled by its serialized markup text, since the
engine's parse / serialize round trip (XML declaration suppressed) is the
identity on the whitespace-free text this wrapper produces — or a string. -/
inductive StoredParam where
  | doc (xstr : String)
  | strv (s : String)

/-- Overwriting insert into an association list, modelling the engine's
string-keyed parameter / output-property tables. -/
def setAssoc (m : List (String × α)) (k : String) (v : α) : List (String × α) :=
  match m with
  | [] => [(k, v)]
  | (k', v') :: rest => if k' == k then (k, v) :: rest else (k', v') :: setAssoc rest k v

/-- Lookup in an association list; `none` models Java `null`. -/
def lookupAssoc (m : List (String × α)) (k : String) : Option α :=
  match m with
  | [] => none
  | (k', v') :: rest => if k' == k then some v' else lookupAssoc rest k

/-- The mutable state of one processor instance's engine transformer:
its parameter table, its output-property table, and the `callback`
property of the wrapper's URI resolver (`uriResolver.self.callback`). -/
structure Transformer where
  params : List (String × StoredParam)
  outputProps : List (String × String)
  callback : Option JSValue

/-- The transformer as freshly produced by `transformerFactory.newTransformer`:
no explicitly set parameters, no explicitly set output properties, and no
user resolver callback installed. -/
def initTransformer : Transformer :=
  { params := [], outputProps := [], callback := none }

/-- Source constructor body, stylesheet resolution and compilation
(lines 190-222).  `files` models the host `readFile` primitive
(`none` = read fails and throws); `engineAccepts` models whether
`transformerFactory.newTransformer` accepts the stylesheet text.
An E4X XML argument is serialized directly; any other argument is
coerced by `String(xsltStyleSheet || '')` and read as a file path,
a failed read throwing `'File not found:' + path`. -/
def constructProcessor (files : String → Option String)
    (engineAccepts : String → Bool) (xsltStyleSheet : JSValue) :
    Except String Transformer :=
  let loaded : Except String String :=
    if isXML xsltStyleSheet then
      .ok (toXMLString xsltStyleSheet)
    else
      let path := jsString (orEmpty xsltStyleSheet)
      match files path with
      | some content => .ok content
      | none => .error ("File not found:" ++ path)
  match loaded with
  | .error e => .error e
  | .ok xsltStyleSheetStr =>
      if engineAccepts xsltStyleSheetStr then .ok initTransformer
      else .error ("Problem with XSLT stylesheet:" ++ xsltStyleSheetStr)

/-- Source `setUriResolver` (lines 259-266): `null` deletes the stored
callback, a function replaces it, anything else does nothing. -/
def setUriResolver (t : Transformer) (callback : JSValue) : Transformer :=
  if isNull callback then { t with callback := none }
  else if isFunction callback then { t with callback := some callback }
  else t

/-- Source `getUriResolver` (lines 273-276): `uriResolver.self.callback || null`.
A stored callback is always a function, hence truthy. -/
def getUriResolver (t : Transformer) : JSValue :=
  match t.callback with
  | some f => f
  | none => .null

/-- The `javax.xml.transform.Source` handed back to the engine by the
wrapper's URI resolver: a system-id (file path) source, an in-memory
string source, or the wrapped default resolver's answer. -/
inductive EngineSource where
  | systemId (path : String)
  | stringContent (content : String)
  | defaultResolved (href base : String)

/-- Source `URIResolver.resolve` (lines 227-247).  `apply` models Rhino
invocation of the stored callback value on `(href, base)`.  With a
callback installed: a string return becomes `new StreamSource(path)`
(a system-id source read by the engine), an XML return is serialized
via `toXMLString` and wrapped in a string reader, anything else goes
through `value2xml` and is wrapped in a string reader.  With no
callback, the engine's standard resolver answers. -/
def resolve (apply : JSValue → String → String → JSValue)
    (t : Transformer) (href base : String) : EngineSource :=
  match t.callback with
  | some cb =>
      let source := apply cb href base
      if isString source then .systemId (jsString source)
      else if isXML source then .stringContent (toXMLString source)
      else .stringContent (value2xml source)
  | none => .defaultResolved href base

/-- Source `setParameter` (lines 286-306): no-op for a non-string name;
an XML or object value is serialized (`toXMLString` resp. `value2xml`)
and parsed by `documentBuilder.parse` into an engine document node
before storage; any other value is stored as `String(value)`.  The
external Java XML parser is modelled by the `parses` predicate on the
serialized text (like `files` models `readFile`): when it rejects —
e.g. a composite value whose key is not a well-formed element name, or
whose text content contains markup characters — the `try/catch`
(lines 303-305) rethrows `'Could not set parameter: ' + name + ' to '
+ value` and nothing is stored. -/
def setParameter (parses : String → Bool) (t : Transformer) (name value : JSValue) :
    Except String Transformer :=
  if !isString name then .ok t
  else if isXML value || isObject value then
    let xstr := if isXML value then toXMLString value else value2xml value
    if parses xstr then
      .ok { t with params := setAssoc t.params (jsString name) (StoredParam.doc xstr) }
    else
      .error ("Could not set parameter: " ++ jsString name ++ " to " ++ jsString value)
  else
    .ok { t with params := setAssoc t.params (jsString name) (StoredParam.strv (jsString value)) }

/-- Source `getParameter` (lines 313-342).  A stored document node (the
only stored object with a `createProcessingInstruction` method) is
re-serialized with the XML declaration suppressed and returned as an E4X
XML value; a stored Java string fails the method probe and is returned
through `String(...)`; an unset parameter yields Java `null`, which is
not an object either, so `String(null) = "null"` is returned. -/
def getParameter (t : Transformer) (name : String) : JSValue :=
  match lookupAssoc t.params name with
  | some (.doc xstr) => .xml xstr
  | some (.strv s) => .str s
  | none => .str "null"

/-- Source `setOutputProperty` (lines 358-368): no-op for a non-string
name; the stored value is `(String(value) || '')` — note the string
coercion happens BEFORE the `|| ''` guard.  The engine's acceptance of
the property name is modelled by the `propAccepts` predicate (a JAXP
transformer throws `IllegalArgumentException` for an unrecognized
non-namespace-qualified name): on rejection the `try/catch`
(lines 362-367) rethrows `'Could not set output property:' + name +
' to ' + value` — `value` being the already-coerced string — and
nothing is stored. -/
def setOutputProperty (propAccepts : String → Bool) (t : Transformer)
    (name value : JSValue) : Except String Transformer :=
  if !isString name then .ok t
  else
    let coerced := jsString value
    let stored := if coerced == "" then "" else coerced
    if propAccepts (jsString name) then
      .ok { t with outputProps := setAssoc t.outputProps (jsString name) stored }
    else
      .error ("Could not set output property:" ++ jsString name ++ " to " ++ stored)

/-- The input-document-resolution prefix of source `transform`
(lines 410-427): an E4X XML argument is serialized; a string argument is
read as a file path, a failed read throwing `'File does not exist:' + path`;
anything else (including an absent argument, i.e. `undefined`) is
converted by `value2xml`. -/
def inputDocString (files : String → Option String) (xmlDocument : JSValue) :
    Except String String :=
  if isXML xmlDocument then .ok (toXMLString xmlDocument)
  else if isString xmlDocument then
    match files (jsString xmlDocument) with
    | some content => .ok content
    | none => .error ("File does not exist:" ++ jsString xmlDocument)
  else .ok (value2xml xmlDocument)

/-- Source `transform` (lines 410-445).  `engineRun` models
`transformer.transform` on the resolved input text: `some out` is the
serialized output, `none` means the engine raises.  The catch block is
`throw('Problem with XML document:', xmlDocumentStr)` — the comma
operator evaluates the literal and throws `xmlDocumentStr` itself, so
the thrown value is exactly the offending input document text. -/
def transform (files : String → Option String) (engineRun : String → Option String)
    (xmlDocument : JSValue) : Except String String :=
  match inputDocString files xmlDocument with
  | .error e => .error e
  | .ok xmlDocumentStr =>
      match engineRun xmlDocumentStr with
      | some out => .ok out
      | none => .error xmlDocumentStr

/-! ## Helper lemmas -/

theorem lookupAssoc_setAssoc (m : List (String × α)) (k : String) (v : α) :
    lookupAssoc (setAssoc m k v) k = some v := by
  induction m with
  | nil => simp [setAssoc, lookupAssoc]
  | cons hd tl ih =>
      obtain ⟨k', v'⟩ := hd
      by_cases h : k' = k
      · simp [setAssoc, lookupAssoc, h]
      · simp [setAssoc, lookupAssoc, h, ih]

theorem orEmpty_str (s : String) : orEmpty (.str s) = .str s := by
  by_cases h : s = ""
  · subst h; simp [orEmpty, isFalsy]
  · simp [orEmpty, isFalsy, h]

theorem foldl_append_shift (l : List String) (s : String) :
    l.foldl (fun r t => r ++ t) s = s ++ l.foldl (fun r t => r ++ t) "" := by
  induction l generalizing s with
  | nil => exact (String.append_empty s).symm
  | cons x xs ih =>
      simp only [List.foldl]
      rw [ih (s ++ x), ih ("" ++ x), String.empty_append, String.append_assoc]

theorem string_join_cons (s : String) (l : List String) :
    String.join (s :: l) = s ++ String.join l := by
  simp only [String.join, List.foldl]
  rw [foldl_append_shift l ("" ++ s), String.empty_append]

theorem encodeItems_eq_join (xs : List JSValue) (c : Nat) :
    encodeItems xs c =
      String.join (((List.range' c xs.length).zip xs).map
        (fun p => "<item index=\"" ++ toString p.1 ++ "\">" ++ encodeInner p.2 ++ "</item>")) := by
  induction xs generalizing c with
  | nil => simp [encodeItems, String.join]
  | cons x rest ih =>
      simp [encodeItems, List.range'_succ, string_join_cons, ih, String.append_assoc]

theorem getParameter_after_set (t : Transformer) (n : String) (p : StoredParam) :
    getParameter { t with params := setAssoc t.params n p } n =
      match p with
      | .doc xstr => JSValue.xml xstr
      | .strv s => JSValue.str s := by
  cases p <;> simp [getParameter, lookupAssoc_setAssoc]

/-! ## Claim theorems -/

/-- Claim C1: for every string name `n`, after a `setParameter(n, v)`
call that completes without throwing (for a composite value, the engine
parser accepted its markup form; a parse failure throws
`ParameterSetFailed` and stores nothing, so there is no "after"),
`getParameter(n)` returns `v` unchanged when `v` is textual; returns a
markup value whose content is exactly `value2xml v` (the encoder's
output) when `v` is a composite/list value; and returns `String(v)` for
the other primitive types (a lossy coercion by design).  The remaining
input kinds (an E4X XML value comes back as a markup value with its own
serialization; a function comes back as its string form) are also
characterized. -/
theorem setParameter_getParameter_roundtrip (parses : String → Bool)
    (t t' : Transformer) (n : String) (v : JSValue)
    (hset : setParameter parses t (.str n) v = .ok t') :
    getParameter t' n =
      match v with
      | .str s => JSValue.str s
      | .arr xs => JSValue.xml (value2xml (.arr xs))
      | .obj kvs => JSValue.xml (value2xml (.obj kvs))
      | .xml xstr => JSValue.xml xstr
      | other => JSValue.str (jsString other) := by
  cases v <;>
    simp only [setParameter, isString, isXML, isObject, Bool.not_true, Bool.not_false,
      Bool.or_self, Bool.or_true, Bool.true_or, Bool.false_or, Bool.or_false,
      if_true, if_false, ite_true, ite_false, Bool.false_eq_true, toXMLString] at hset <;>
    [skip; skip; skip; skip; skip; skip; split at hset; split at hset; split at hset] <;>
    first
    | (injection hset with h; subst h; exact getParameter_after_set t n _)
    | injection hset

/-- Claim C1 witness: storing the composite `{hello: 'world'}` under a
parser that accepts its markup form succeeds, and `getParameter` hands
back the markup value `value2xml {hello: 'world'}`. -/
theorem setParameter_getParameter_roundtrip_witness :
    ∃ t', setParameter (fun _ => true) initTransformer (JSValue.str "p")
            (JSValue.obj [("hello", JSValue.str "world")]) = Except.ok t' ∧
          getParameter t' "p" =
            JSValue.xml (value2xml (JSValue.obj [("hello", JSValue.str "world")])) :=
  ⟨{ params := [("p", StoredParam.doc "<root><hello>world</hello></root>")],
     outputProps := [], callback := none },
    rfl,
    setParameter_getParameter_roundtrip (fun _ => true) initTransformer _ "p"
      (JSValue.obj [("hello", JSValue.str "world")]) rfl⟩

/-- Claim C2: encoding a list `xs` produces, under the synthetic `<root>`
element, exactly `xs.length` sibling `item` elements carrying `index`
attributes `0 .. xs.length - 1` in order, each with content the
recursive encoding of the corresponding list element. -/
theorem value2xml_list (xs : List JSValue) :
    value2xml (.arr xs) =
      "<root>" ++
        String.join (((List.range xs.length).zip xs).map
          (fun p => "<item index=\"" ++ toString p.1 ++ "\">" ++ encodeInner p.2 ++ "</item>")) ++
        "</root>" := by
  simp [value2xml, isObject, encodeInner, encodeItems_eq_join, List.range_eq_range']

/-- The primitive value categories named by the spec's encoder contract:
textual, numeric, boolean, undefined, null. -/
def isPrimitiveValue : JSValue → Bool
  | .undef => true
  | .null => true
  | .bool _ => true
  | .num _ => true
  | .str _ => true
  | _ => false

/-- Claim C3 counterexample: the claim says exactly `undefined`, `null` and the
empty string coerce to an empty string, so the boolean `false` — none of
those three — should be emitted as its string form `"false"`; the encoder
instead emits the empty string, because `String(value || '')` coerces
every falsy value. -/
theorem encodeInner_false_not_string_form :
    encodeInner (JSValue.bool false) ≠ jsString (JSValue.bool false) ∧
      encodeInner (JSValue.bool false) = "" ∧
      jsString (JSValue.bool false) = "false" ∧
      isUndefined (JSValue.bool false) = false ∧
      isNull (JSValue.bool false) = false ∧
      isString (JSValue.bool false) = false := by
  refine ⟨?_, rfl, rfl, rfl, rfl, rfl⟩
  decide

/-- Claim C3 amended: for every primitive value (textual, numeric, boolean,
undefined, or null) the encoder emits the value's string form, with
every FALSY primitive — `undefined`, `null`, the empty string, `false`
and `0` — coerced to an empty string (`String(value || '')`). -/
theorem encodeInner_primitive (v : JSValue) (h : isPrimitiveValue v = true) :
    encodeInner v = if isFalsy v then "" else jsString v := by
  cases v <;> simp_all [encodeInner, orEmpty, isPrimitiveValue, isFalsy, jsString] <;>
    split <;> simp_all [jsString]

/-- Claim C3 amended, witness: the numeric value 5 is primitive and truthy and
is emitted as its string form "5". -/
theorem encodeInner_primitive_witness :
    isPrimitiveValue (JSValue.num 5) = true ∧
      encodeInner (JSValue.num 5) =
        (if isFalsy (JSValue.num 5) then "" else jsString (JSValue.num 5)) :=
  ⟨by decide, encodeInner_primitive (JSValue.num 5) (by decide)⟩

/-- Claim C4: whenever the engine raises during transform execution (modelled
by `engineRun` returning `none` on the resolved input document text),
`transform` fails and the thrown value contains the offending input
document text.  (By the comma operator in the source's
`throw('Problem with XML document:', xmlDocumentStr)`, the thrown value
is exactly `xmlDocumentStr`, so the containment is by `pre = post = ""`.) -/
theorem transform_engine_raises (files : String → Option String)
    (engineRun : String → Option String) (x : JSValue) (docStr : String)
    (hdoc : inputDocString files x = .ok docStr) (hrun : engineRun docStr = none) :
    ∃ pre post, transform files engineRun x = .error (pre ++ docStr ++ post) := by
  refine ⟨"", "", ?_⟩
  rw [String.empty_append, String.append_empty]
  simp [transform, hdoc, hrun]

/-- Claim C4 witness: with no input argument the document text is
`<root></root>`; a raising engine makes `transform` fail carrying it. -/
theorem transform_engine_raises_witness :
    ∃ pre post,
      transform (fun _ => none) (fun _ => none) JSValue.undef =
        .error (pre ++ "<root></root>" ++ post) :=
  transform_engine_raises (fun _ => none) (fun _ => none) JSValue.undef
    "<root></root>" rfl rfl

/-- Claim C5: for a string argument naming an unreadable file, construction
fails with the stylesheet-not-found error naming the path
(`'File not found:' + path`), and `transform` with that string fails
with the input-not-found error naming the path
(`'File does not exist:' + path`). -/
theorem missing_file_errors (files : String → Option String)
    (engineAccepts : String → Bool) (engineRun : String → Option String)
    (path : String) (hmiss : files path = none) :
    constructProcessor files engineAccepts (.str path) =
        .error ("File not found:" ++ path) ∧
      transform files engineRun (.str path) =
        .error ("File does not exist:" ++ path) := by
  constructor
  · simp [constructProcessor, isXML, orEmpty_str, jsString, hmiss]
  · simp [transform, inputDocString, isXML, isString, jsString, hmiss]

/-- Claim C5 witness: with no readable files at all, both error paths fire on
the concrete path "nofile.xml". -/
theorem missing_file_errors_witness :
    constructProcessor (fun _ => none) (fun _ => true) (.str "nofile.xml") =
        .error ("File not found:" ++ "nofile.xml") ∧
      transform (fun _ => none) (fun _ => some "") (.str "nofile.xml") =
        .error ("File does not exist:" ++ "nofile.xml") :=
  missing_file_errors (fun _ => none) (fun _ => true) (fun _ => some "")
    "nofile.xml" rfl

/-- Claim C6: calling `transform` with the input argument absent (`undefined`)
routes the value through the encoder, so the input document text handed
to the engine is `<root></root>` — the empty synthetic-root document. -/
theorem transform_absent_input (files : String → Option String)
    (engineRun : String → Option String) :
    transform files engineRun JSValue.undef =
      match engineRun "<root></root>" with
      | some out => .ok out
      | none => .error "<root></root>" := by
  have hdoc : inputDocString files JSValue.undef = .ok "<root></root>" := by
    simp [inputDocString, isXML, isString, value2xml, isObject, orEmpty, isFalsy, jsString]
  simp [transform, hdoc]

/-- Claim C7 counterexample: the claim says an absent value is coerced to the
empty string before storage, but the source computes
`(String(value) || '')` — the string coercion happens first, so an
absent value (`undefined`) stores the non-empty string `"undefined"`.
The counterexample uses `"method"`, a property name every JAXP engine
accepts, so the engine-rejection path is not involved. -/
theorem setOutputProperty_absent_stores_undefined :
    setOutputProperty (fun _ => true) initTransformer (JSValue.str "method")
        JSValue.undef =
      Except.ok { params := [], outputProps := [("method", "undefined")],
                  callback := none } ∧
      ("undefined" : String) ≠ "" := by
  refine ⟨rfl, ?_⟩
  decide

/-- Claim C7 amended: for every `setOutputProperty(name, value)` call with
textual `name` that completes without throwing (the engine accepted the
property name; on rejection the call throws `OutputPropertySetFailed`
naming the property and the coerced value, and stores nothing), the
value stored in the engine's output-property table is exactly the
string coercion `String(value)`; the `|| ''` guard only fires when that
coercion is already the empty string, so no falsy value other than ones
whose string form is empty is converted to `""` (absent stores
`"undefined"`, `false` stores `"false"`, `0` stores `"0"`, `null`
stores `"null"`). -/
theorem setOutputProperty_stores_string_coercion (propAccepts : String → Bool)
    (t t' : Transformer) (n : String) (v : JSValue)
    (hset : setOutputProperty propAccepts t (.str n) v = .ok t') :
    lookupAssoc t'.outputProps n = some (jsString v) := by
  by_cases h : jsString v = "" <;>
    simp only [setOutputProperty, isString, Bool.not_true, if_true, if_false,
      ite_true, ite_false, Bool.false_eq_true] at hset <;>
    split at hset <;>
    first
    | (injection hset with heq; subst heq;
       simp [jsString, h, lookupAssoc_setAssoc])
    | injection hset

/-- Claim C7 amended, witness: storing the boolean `false` under the
universally accepted name "indent" succeeds and stores `"false"`
(`String(false)`), not the empty string. -/
theorem setOutputProperty_stores_string_coercion_witness :
    ∃ t', setOutputProperty (fun _ => true) initTransformer (JSValue.str "indent")
            (JSValue.bool false) = Except.ok t' ∧
          lookupAssoc t'.outputProps "indent" = some (jsString (JSValue.bool false)) :=
  ⟨{ params := [], outputProps := [("indent", "false")], callback := none },
    rfl,
    setOutputProperty_stores_string_coercion (fun _ => true) initTransformer _
      "indent" (JSValue.bool false) rfl⟩

/-- Claim C8: with a user resolver callback installed, a resource request
`(href, base)` invokes the callback and dispatches on its return value
exactly as `transform` dispatches on its input: a string return is
treated as a file path wrapped as a (system-id) source for the engine
to read; an E4X XML return is serialized directly; any other return is
passed through the `value2xml` encoder and then serialized.  With no
callback installed, the engine's standard resolver answers. -/
theorem resolve_three_way_dispatch (apply : JSValue → String → String → JSValue)
    (t : Transformer) (href base : String) :
    resolve apply t href base =
      match t.callback with
      | none => .defaultResolved href base
      | some cb =>
          match apply cb href base with
          | .str s => .systemId s
          | .xml xstr => .stringContent xstr
          | other => .stringContent (value2xml other) := by
  cases hcb : t.callback with
  | none => simp [resolve, hcb]
  | some cb =>
      cases happ : apply cb href base <;>
        simp [resolve, hcb, happ, isString, isXML, jsString, toXMLString]

/-- Claim C9: `setUriResolver` with an argument that is neither `null` nor a
function leaves the transformer — in particular the installed resolver
callback — unchanged, so `getUriResolver` returns the same value before
and after the call. -/
theorem setUriResolver_nonfunction_noop (t : Transformer) (x : JSValue)
    (hnull : isNull x = false) (hfn : isFunction x = false) :
    setUriResolver t x = t ∧
      getUriResolver (setUriResolver t x) = getUriResolver t := by
  have h : setUriResolver t x = t := by simp [setUriResolver, hnull, hfn]
  exact ⟨h, by rw [h]⟩

/-- Claim C9 witness: the number 5 is neither null nor a function, and setting
it as the resolver on a fresh transformer changes nothing. -/
theorem setUriResolver_nonfunction_noop_witness :
    isNull (JSValue.num 5) = false ∧ isFunction (JSValue.num 5) = false ∧
      (setUriResolver initTransformer (JSValue.num 5) = initTransformer ∧
        getUriResolver (setUriResolver initTransformer (JSValue.num 5)) =
          getUriResolver initTransformer) :=
  ⟨rfl, rfl, setUriResolver_nonfunction_noop initTransformer (JSValue.num 5) rfl rfl⟩

/-- Claim C10: for a name that was never set as a parameter, the engine
returns Java `null`, which is not an object, so `getParameter` does not
fail and returns `String(null)`, the string `"null"`. -/
theorem getParameter_unset (t : Transformer) (name : String)
    (h : lookupAssoc t.params name = none) :
    getParameter t name = JSValue.str "null" := by
  simp [getParameter, h]

/-- Claim C10 witness: on a fresh transformer, any name is unset and
`getParameter` yields the string "null". -/
theorem getParameter_unset_witness :
    lookupAssoc initTransformer.params "never-set" = none ∧
      getParameter initTransformer "never-set" = JSValue.str "null" :=
  ⟨rfl, getParameter_unset initTransformer "never-set" rfl⟩
